import Mathlib

/-!
Verification of the games REST resource handler
(src/server/routes/games.py) against its specification.

The handler is embedded shallowly:
  * the database session state is a record of three tables (games,
    categories, publishers), each a list of rows;
  * a parsed JSON request body is an association list of string keys and
    JSON values; `request.get_json(silent=True)` yielding Python `None`
    (no body, invalid JSON, or the JSON literal `null`) is `Option.none`,
    and the empty JSON object is the empty association list — both are
    falsy in the Python truthiness test `if not data`;
  * exceptions raised by external collaborators are explicit oracle
    parameters: a `ValueError` raised while constructing or mutating a
    `Game` model object is an `Option String` carrying its message, and an
    `IntegrityError` raised by `db.session.commit()` is a `Bool`;
  * each route handler is a pure function from the pre-state, the parsed
    request and the oracles to the response and the post-state;
    `db.session.rollback()` means the post-state equals the pre-state.
-/

namespace GamesApi

/-- A JSON scalar value as it appears in a parsed request body. -/
inductive JVal where
  | jnull : JVal
  | jint : Int → JVal
  | jstr : String → JVal
  deriving DecidableEq, Repr

/-- A parsed JSON object body: an association list of keys and values
(Python dict keys are unique; lookup takes the first occurrence). -/
def Json := List (String × JVal)

instance : DecidableEq Json := by
  unfold Json
  infer_instance

/-- Python `field in data`. -/
def hasKey (d : Json) (k : String) : Bool :=
  d.any (fun p => p.1 == k)

/-- Python `data[field]` (used only under a `hasKey` guard; the default
is never reached there). -/
def getKey (d : Json) (k : String) : JVal :=
  ((d.find? (fun p => p.1 == k)).map Prod.snd).getD JVal.jnull

/-- Python `data.get(field)`: absent keys give Python `None`. -/
def getOpt (d : Json) (k : String) : JVal :=
  ((d.find? (fun p => p.1 == k)).map Prod.snd).getD JVal.jnull

/-- A row of the category table (attributes beyond the identifier are
opaque to this component). -/
structure Category where
  id : Int
  name : String
  deriving DecidableEq, Repr

/-- A row of the publisher table. -/
structure Publisher where
  id : Int
  name : String
  deriving DecidableEq, Repr

/-- A row of the game table.  Field values come straight from request
JSON, so they are stored as JSON values; `star_rating` is optional
(`jnull` when absent). -/
structure Game where
  id : Int
  title : JVal
  description : JVal
  star_rating : JVal
  category_id : JVal
  publisher_id : JVal
  deriving DecidableEq, Repr

/-- The database state visible to the handler. -/
structure DB where
  games : List Game
  categories : List Category
  publishers : List Publisher
  deriving DecidableEq, Repr

/-- Modelled from the spec: the `Game.to_dict` serialization method lives
in the models module, which is not part of the given source; the spec
describes it as "a serialization method producing a JSON-compatible
mapping", so it is modelled as the record of the game's own fields. -/
structure GameDict where
  id : Int
  title : JVal
  description : JVal
  star_rating : JVal
  category_id : JVal
  publisher_id : JVal
  deriving DecidableEq, Repr

/-- Modelled from the spec: serialization of a game row. -/
def Game.to_dict (g : Game) : GameDict :=
  { id := g.id
    title := g.title
    description := g.description
    star_rating := g.star_rating
    category_id := g.category_id
    publisher_id := g.publisher_id }

/-- The value a handler returns: a serialized game with a status code, an
error object with a status code, or the empty JSON object with a status
code (the delete success path). -/
inductive Resp where
  | payload : GameDict → Nat → Resp
  | error : String → Nat → Resp
  | emptyObj : Nat → Resp
  deriving DecidableEq, Repr

/-- `db.session.query(Category).filter(Category.id == v).first()` is
non-empty: some category row's integer id equals the given JSON value. -/
def catExists (cats : List Category) (v : JVal) : Bool :=
  cats.any (fun c => JVal.jint c.id == v)

/-- Same for the publisher table. -/
def pubExists (pubs : List Publisher) (v : JVal) : Bool :=
  pubs.any (fun p => JVal.jint p.id == v)

/-- The row filter `Game.id == id`. -/
def byId (id : Int) (g : Game) : Bool :=
  g.id == id

/-- `db.session.query(Game).filter(Game.id == id).first()`. -/
def findGame (games : List Game) (id : Int) : Option Game :=
  games.find? (byId id)

/-- Replace the first element satisfying `p` by its image under `f`
(mutating the object returned by `.first()` in place). -/
def setFirst (p : α → Bool) (f : α → α) : List α → List α
  | [] => []
  | x :: xs => if p x then f x :: xs else x :: setFirst p f xs

/-- Remove the first element satisfying `p`
(`db.session.delete` on the object returned by `.first()`). -/
def removeFirst (p : α → Bool) : List α → List α
  | [] => []
  | x :: xs => if p x then xs else x :: removeFirst p xs

/-- The required-field list of `create_game`, in source order. -/
def required_fields : List String :=
  ["title", "description", "category_id", "publisher_id"]

/-- The `Game(...)` constructor call of `create_game`: each field comes
from the request body, `star_rating` via `data.get` (null when absent),
the id assigned by the database on insert. -/
def builtGame (d : Json) (newId : Int) : Game :=
  { id := newId
    title := getKey d "title"
    description := getKey d "description"
    category_id := getKey d "category_id"
    publisher_id := getKey d "publisher_id"
    star_rating := getOpt d "star_rating" }

/-- The field assignments of `update_game`: each of the five fields is
overwritten exactly when its key is present in the body. -/
def updatedGame (game : Game) (d : Json) : Game :=
  { game with
    title := if hasKey d "title" then getKey d "title" else game.title
    description := if hasKey d "description" then getKey d "description" else game.description
    category_id := if hasKey d "category_id" then getKey d "category_id" else game.category_id
    publisher_id := if hasKey d "publisher_id" then getKey d "publisher_id" else game.publisher_id
    star_rating := if hasKey d "star_rating" then getKey d "star_rating" else game.star_rating }

/-- GET /api/games/<id>: the base query outer-joins publisher and
category on their primary keys, which neither drops nor duplicates game
rows, so `.filter(Game.id == id).first()` is the first game with that
id. -/
def get_game (db : DB) (id : Int) : Resp :=
  match findGame db.games id with
  | none => Resp.error "Game not found" 404
  | some g => Resp.payload g.to_dict 200

/-- POST /api/games.  `data` is the parsed body, `newId` the id the
database assigns to the inserted row, `ctorError` the `ValueError`
oracle for `Game(...)`, `commitError` the `IntegrityError` oracle for
`db.session.commit()`. -/
def create_game (db : DB) (data : Option Json) (newId : Int)
    (ctorError : Option String) (commitError : Bool) : Resp × DB :=
  match data with
  | none => (Resp.error "Request body must be JSON" 400, db)
  | some d =>
    if d.isEmpty then (Resp.error "Request body must be JSON" 400, db)
    else
      let missing := required_fields.filter (fun f => !hasKey d f)
      if !missing.isEmpty then
        (Resp.error ("Missing required fields: " ++ String.intercalate ", " missing) 400, db)
      else if !catExists db.categories (getKey d "category_id") then
        (Resp.error "Category not found" 400, db)
      else if !pubExists db.publishers (getKey d "publisher_id") then
        (Resp.error "Publisher not found" 400, db)
      else
        match ctorError with
        | some msg => (Resp.error msg 400, db)
        | none =>
          if commitError then (Resp.error "Database integrity error" 400, db)
          else (Resp.payload (builtGame d newId).to_dict 201,
                { db with games := db.games ++ [builtGame d newId] })

/-- PUT /api/games/<id>.  `mutError` is the `ValueError` oracle for the
field assignments on the model object, `commitError` the
`IntegrityError` oracle for the commit. -/
def update_game (db : DB) (id : Int) (data : Option Json)
    (mutError : Option String) (commitError : Bool) : Resp × DB :=
  match findGame db.games id with
  | none => (Resp.error "Game not found" 404, db)
  | some game =>
    match data with
    | none => (Resp.error "Request body must be JSON" 400, db)
    | some d =>
      if d.isEmpty then (Resp.error "Request body must be JSON" 400, db)
      else if hasKey d "category_id" && !catExists db.categories (getKey d "category_id") then
        (Resp.error "Category not found" 400, db)
      else if hasKey d "publisher_id" && !pubExists db.publishers (getKey d "publisher_id") then
        (Resp.error "Publisher not found" 400, db)
      else
        match mutError with
        | some msg => (Resp.error msg 400, db)
        | none =>
          if commitError then (Resp.error "Database integrity error" 400, db)
          else (Resp.payload (updatedGame game d).to_dict 200,
                { db with games :=
                    setFirst (byId id) (fun _ => updatedGame game d) db.games })

/-- DELETE /api/games/<id>.  `commitError` is the `IntegrityError`
oracle for the commit. -/
def delete_game (db : DB) (id : Int) (commitError : Bool) : Resp × DB :=
  match findGame db.games id with
  | none => (Resp.error "Game not found" 404, db)
  | some _ =>
    if commitError then (Resp.error "Database integrity error" 400, db)
    else (Resp.emptyObj 204, { db with games := removeFirst (byId id) db.games })

/-- The referential-integrity invariant of the data model: every game's
`category_id` and `publisher_id`, if set (non-null), reference an
existing category/publisher row. -/
def FKsResolve (db : DB) : Bool :=
  db.games.all (fun g =>
    (g.category_id == JVal.jnull || catExists db.categories g.category_id) &&
    (g.publisher_id == JVal.jnull || pubExists db.publishers g.publisher_id))

/-! Concrete sample data used by the witness theorems. -/

/-- A sample category row. -/
def cat1 : Category := { id := 1, name := "Action" }

/-- A sample publisher row. -/
def pub1 : Publisher := { id := 1, name := "Acme" }

/-- A sample game row referencing `cat1` and `pub1`. -/
def game1 : Game :=
  { id := 1, title := JVal.jstr "Halo", description := JVal.jstr "Shooter"
    star_rating := JVal.jnull, category_id := JVal.jint 1, publisher_id := JVal.jint 1 }

/-- A sample database with one game, one category, one publisher. -/
def db1 : DB := { games := [game1], categories := [cat1], publishers := [pub1] }

/-- A valid create body. -/
def dvalid : Json :=
  [("title", JVal.jstr "Myst"), ("description", JVal.jstr "Puzzle"),
   ("category_id", JVal.jint 1), ("publisher_id", JVal.jint 1)]

/-- A create body missing `title` and `publisher_id`. -/
def dmiss : Json :=
  [("description", JVal.jstr "Puzzle"), ("category_id", JVal.jint 1)]

/-- A create body with an unresolved `category_id` that is also missing
`publisher_id`. -/
def dbadcat : Json :=
  [("title", JVal.jstr "Myst"), ("description", JVal.jstr "Puzzle"),
   ("category_id", JVal.jint 99)]

/-- A create body with all required fields but an unresolved
`category_id`. -/
def dbadcatFull : Json :=
  [("title", JVal.jstr "Myst"), ("description", JVal.jstr "Puzzle"),
   ("category_id", JVal.jint 99), ("publisher_id", JVal.jint 1)]

/-- An update body supplying only `star_rating`. -/
def dsr : Json := [("star_rating", JVal.jint 5)]

/-- `game1` after the sample star-rating update. -/
def game2 : Game := { game1 with star_rating := JVal.jint 5 }

/-! Helper lemmas on the list operations of the embedding. -/

/-- `setFirst` maps the first `p`-match through `f`; when `f` preserves
`p`, the first match of the result is the image of the original one. -/
theorem find?_setFirst (p : α → Bool) (f : α → α) (l : List α) (a : α)
    (h : l.find? p = some a) (hf : p (f a) = true) :
    (setFirst p f l).find? p = some (f a) := by
  induction l with
  | nil => simp [List.find?] at h
  | cons x xs ih =>
    by_cases hx : p x = true
    · rw [List.find?_cons_of_pos _ hx] at h
      cases h
      simp only [setFirst, if_pos hx]
      exact List.find?_cons_of_pos _ hf
    · rw [List.find?_cons_of_neg _ hx] at h
      simp only [setFirst, if_neg hx]
      rw [List.find?_cons_of_neg _ hx]
      exact ih h

/-- `List.all` survives `setFirst` when the replacement satisfies the
predicate. -/
theorem all_setFirst (q p : α → Bool) (f : α → α) (l : List α)
    (hl : l.all q = true) (hb : ∀ a, q a = true → q (f a) = true) :
    (setFirst p f l).all q = true := by
  induction l with
  | nil => rfl
  | cons x xs ih =>
    simp only [List.all_cons, Bool.and_eq_true] at hl
    by_cases hx : p x = true
    · simp [setFirst, hx, List.all_cons, hb x hl.1, hl.2]
    · simp only [setFirst, if_neg hx, List.all_cons, Bool.and_eq_true]
      exact ⟨hl.1, ih hl.2⟩

/-- After `removeFirst` erases the (unique, by primary-key `Nodup`)
matching row, no row with that id remains. -/
theorem find?_removeFirst_none (l : List Game) (id : Int) (g : Game)
    (hnd : (l.map Game.id).Nodup)
    (h : l.find? (byId id) = some g) :
    (removeFirst (byId id) l).find? (byId id) = none := by
  induction l with
  | nil => simp [List.find?] at h
  | cons x xs ih =>
    rw [List.map_cons, List.nodup_cons] at hnd
    by_cases hx : byId id x = true
    · have hxid : x.id = id := by simpa [byId] using hx
      simp only [removeFirst, if_pos hx]
      rw [List.find?_eq_none]
      intro y hy hyp
      have hyid : y.id = id := by simpa [byId] using hyp
      exact hnd.1 (by simpa [hyid, hxid] using List.mem_map_of_mem Game.id hy)
    · rw [List.find?_cons_of_neg _ hx] at h
      simp only [removeFirst, if_neg hx]
      rw [List.find?_cons_of_neg _ hx]
      exact ih hnd.2 h

/-! The claim theorems. -/

/-- C5: GET /api/games/id returns 404 with error body "Game not found"
when no game with that id exists, and 200 with the serialized game when
one does. -/
theorem get_game_spec (db : DB) (id : Int) :
    (findGame db.games id = none → get_game db id = Resp.error "Game not found" 404) ∧
    (∀ g, findGame db.games id = some g → get_game db id = Resp.payload g.to_dict 200) := by
  constructor
  · intro h; simp [get_game, h]
  · intro g h; simp [get_game, h]

/-- C5 witness: in the sample database, id 2 is absent (404) and id 1 is
present (200 with its serialization). -/
theorem get_game_spec_witness :
    get_game db1 2 = Resp.error "Game not found" 404 ∧
    get_game db1 1 = Resp.payload game1.to_dict 200 :=
  ⟨(get_game_spec db1 2).1 (by decide), (get_game_spec db1 1).2 game1 (by decide)⟩

/-- C3: POST with a non-empty body missing required fields returns 400
with a message listing exactly the missing field names, in source
order. -/
theorem create_game_missing_fields (db : DB) (d : Json) (newId : Int)
    (ce : Option String) (come : Bool)
    (hne : d.isEmpty = false)
    (hm : (required_fields.filter (fun f => !hasKey d f)).isEmpty = false) :
    create_game db (some d) newId ce come =
      (Resp.error ("Missing required fields: " ++
        String.intercalate ", " (required_fields.filter (fun f => !hasKey d f))) 400, db) := by
  simp [create_game, hne, hm]

/-- C3 witness: a body with only description and category_id yields a
400 listing both title and publisher_id. -/
theorem create_game_missing_fields_witness :
    create_game db1 (some dmiss) 7 none false =
      (Resp.error "Missing required fields: title, publisher_id" 400, db1) := by
  have h := create_game_missing_fields db1 dmiss 7 none false (by decide) (by decide)
  exact h.trans (by decide)

/-- C4 counterexample: a POST body whose category_id (99) resolves to no
category row but which is also missing publisher_id is answered with the
missing-fields error, not with "Category not found" as the claim states
for every such request. -/
theorem create_game_bad_category_counterexample :
    catExists db1.categories (getKey dbadcat "category_id") = false ∧
    create_game db1 (some dbadcat) 7 none false =
      (Resp.error "Missing required fields: publisher_id" 400, db1) ∧
    Resp.error "Missing required fields: publisher_id" 400 ≠
      Resp.error "Category not found" 400 := by
  refine ⟨by decide, ?_, by decide⟩
  decide

/-- C4 (amended): POST whose body contains all required fields but whose
category_id resolves to no category row returns 400 with error
"Category not found", and the database is unchanged (no game row is
created). -/
theorem create_game_bad_category (db : DB) (d : Json) (newId : Int)
    (ce : Option String) (come : Bool)
    (ht : hasKey d "title" = true) (hd : hasKey d "description" = true)
    (hc : hasKey d "category_id" = true) (hp : hasKey d "publisher_id" = true)
    (hcat : catExists db.categories (getKey d "category_id") = false) :
    create_game db (some d) newId ce come = (Resp.error "Category not found" 400, db) := by
  have hne : d.isEmpty = false := by
    cases d with
    | nil => simp [hasKey] at ht
    | cons a l => rfl
  have hm : required_fields.filter (fun f => !hasKey d f) = [] := by
    simp [required_fields, List.filter, ht, hd, hc, hp]
  simp [create_game, hne, hm, hcat]

/-- C4 witness: with all required fields present and category_id 99
unresolved the handler answers "Category not found" and leaves the
database unchanged. -/
theorem create_game_bad_category_witness :
    create_game db1 (some dbadcatFull) 7 none false =
      (Resp.error "Category not found" 400, db1) :=
  create_game_bad_category db1 dbadcatFull 7 none false
    (by decide) (by decide) (by decide) (by decide) (by decide)

/-- C1: POST with all required fields present, a resolving category_id
and publisher_id, and no construction or commit error, appends the
constructed game row to the game table and returns 201 with its
serialization, whose category_id and publisher_id equal the supplied
values. -/
theorem create_game_valid_returns_created (db : DB) (d : Json) (newId : Int)
    (ht : hasKey d "title" = true) (hd : hasKey d "description" = true)
    (hc : hasKey d "category_id" = true) (hp : hasKey d "publisher_id" = true)
    (hcat : catExists db.categories (getKey d "category_id") = true)
    (hpub : pubExists db.publishers (getKey d "publisher_id") = true) :
    create_game db (some d) newId none false =
      (Resp.payload (builtGame d newId).to_dict 201,
       { db with games := db.games ++ [builtGame d newId] }) ∧
    (builtGame d newId).to_dict.category_id = getKey d "category_id" ∧
    (builtGame d newId).to_dict.publisher_id = getKey d "publisher_id" := by
  refine ⟨?_, rfl, rfl⟩
  have hne : d.isEmpty = false := by
    cases d with
    | nil => simp [hasKey] at ht
    | cons a l => rfl
  have hm : required_fields.filter (fun f => !hasKey d f) = [] := by
    simp [required_fields, List.filter, ht, hd, hc, hp]
  simp [create_game, hne, hm, hcat, hpub]

/-- C1 witness: the valid sample body is persisted and echoed back with
status 201 and the supplied foreign keys. -/
theorem create_game_valid_returns_created_witness :
    create_game db1 (some dvalid) 2 none false =
      (Resp.payload (builtGame dvalid 2).to_dict 201,
       { db1 with games := db1.games ++ [builtGame dvalid 2] }) ∧
    (builtGame dvalid 2).to_dict.category_id = JVal.jint 1 ∧
    (builtGame dvalid 2).to_dict.publisher_id = JVal.jint 1 := by
  have h := create_game_valid_returns_created db1 dvalid 2
    (by decide) (by decide) (by decide) (by decide) (by decide) (by decide)
  exact ⟨h.1, h.2.1.trans (by decide), h.2.2.trans (by decide)⟩

/-- C10: a missing/null body (`none`) and the empty JSON object are both
falsy in the Python truthiness test, so POST, and PUT on an existing
game, answer 400 "Request body must be JSON" for either — the empty
object is not reported as missing required fields and is not accepted
as a no-op update. -/
theorem falsy_body_rejected :
    (∀ (db : DB) (newId : Int) (ce : Option String) (come : Bool),
       create_game db none newId ce come =
         (Resp.error "Request body must be JSON" 400, db) ∧
       create_game db (some []) newId ce come =
         (Resp.error "Request body must be JSON" 400, db)) ∧
    (∀ (db : DB) (id : Int) (g : Game) (mErr : Option String) (come : Bool),
       findGame db.games id = some g →
       update_game db id none mErr come =
         (Resp.error "Request body must be JSON" 400, db) ∧
       update_game db id (some []) mErr come =
         (Resp.error "Request body must be JSON" 400, db)) := by
  constructor
  · intro db newId ce come
    exact ⟨rfl, rfl⟩
  · intro db id g mErr come h
    constructor <;> simp [update_game, h]

/-- C10 witness: both falsy bodies are rejected on POST and on PUT of
the existing game with id 1. -/
theorem falsy_body_rejected_witness :
    create_game db1 none 7 none false =
      (Resp.error "Request body must be JSON" 400, db1) ∧
    create_game db1 (some []) 7 none false =
      (Resp.error "Request body must be JSON" 400, db1) ∧
    update_game db1 1 none none false =
      (Resp.error "Request body must be JSON" 400, db1) ∧
    update_game db1 1 (some []) none false =
      (Resp.error "Request body must be JSON" 400, db1) :=
  ⟨(falsy_body_rejected.1 db1 7 none false).1,
   (falsy_body_rejected.1 db1 7 none false).2,
   (falsy_body_rejected.2 db1 1 game1 none false (by decide)).1,
   (falsy_body_rejected.2 db1 1 game1 none false (by decide)).2⟩

/-- C2: PUT on an existing game with a body supplying only star_rating
leaves the game's title, description, category_id and publisher_id
unchanged, whatever the error oracles do. -/
theorem update_star_rating_frame (db : DB) (id : Int) (v : JVal) (g : Game)
    (mErr : Option String) (come : Bool)
    (h : findGame db.games id = some g) :
    ∀ g', findGame (update_game db id (some [("star_rating", v)]) mErr come).2.games id = some g' →
      g'.title = g.title ∧ g'.description = g.description ∧
      g'.category_id = g.category_id ∧ g'.publisher_id = g.publisher_id := by
  intro g' hg'
  rcases mErr with _ | msg
  · cases come with
    | false =>
      have key : update_game db id (some [("star_rating", v)]) none false =
          (Resp.payload (updatedGame g [("star_rating", v)]).to_dict 200,
           { db with games :=
               setFirst (byId id) (fun _ => updatedGame g [("star_rating", v)]) db.games }) := by
        unfold update_game
        rw [h]
        rfl
      rw [key] at hg'
      have hpgg : byId id g = true := List.find?_some h
      have hpg : byId id (updatedGame g [("star_rating", v)]) = true := by
        simpa [byId, updatedGame] using hpgg
      have hfs := find?_setFirst (byId id) (fun _ => updatedGame g [("star_rating", v)])
        db.games g h hpg
      unfold findGame at hg'
      rw [hfs] at hg'
      cases hg'
      exact ⟨rfl, rfl, rfl, rfl⟩
    | true =>
      have key : update_game db id (some [("star_rating", v)]) none true =
          (Resp.error "Database integrity error" 400, db) := by
        unfold update_game
        rw [h]
        rfl
      rw [key] at hg'
      rw [h] at hg'
      cases hg'
      exact ⟨rfl, rfl, rfl, rfl⟩
  · have key : update_game db id (some [("star_rating", v)]) (some msg) come =
        (Resp.error msg 400, db) := by
      unfold update_game
      rw [h]
      rfl
    rw [key] at hg'
    rw [h] at hg'
    cases hg'
    exact ⟨rfl, rfl, rfl, rfl⟩

/-- C2 witness: updating game 1 with star_rating 5 keeps all four other
fields. -/
theorem update_star_rating_frame_witness :
    game2.title = game1.title ∧ game2.description = game1.description ∧
    game2.category_id = game1.category_id ∧ game2.publisher_id = game1.publisher_id :=
  update_star_rating_frame db1 1 (JVal.jint 5) game1 none false (by decide) game2 (by decide)

/-- C6: on create and on update, a value error during
construction/mutation yields 400 with the error's message and an
integrity error at commit yields 400 "Database integrity error"; in all
four cases the returned state equals the pre-state (rollback,
atomicity on error). -/
theorem mutation_errors_rollback :
    (∀ (db : DB) (d : Json) (newId : Int) (msg : String) (come : Bool),
       hasKey d "title" = true → hasKey d "description" = true →
       hasKey d "category_id" = true → hasKey d "publisher_id" = true →
       catExists db.categories (getKey d "category_id") = true →
       pubExists db.publishers (getKey d "publisher_id") = true →
       create_game db (some d) newId (some msg) come = (Resp.error msg 400, db)) ∧
    (∀ (db : DB) (d : Json) (newId : Int),
       hasKey d "title" = true → hasKey d "description" = true →
       hasKey d "category_id" = true → hasKey d "publisher_id" = true →
       catExists db.categories (getKey d "category_id") = true →
       pubExists db.publishers (getKey d "publisher_id") = true →
       create_game db (some d) newId none true =
         (Resp.error "Database integrity error" 400, db)) ∧
    (∀ (db : DB) (id : Int) (d : Json) (g : Game) (msg : String) (come : Bool),
       findGame db.games id = some g → d.isEmpty = false →
       (hasKey d "category_id" = true → catExists db.categories (getKey d "category_id") = true) →
       (hasKey d "publisher_id" = true → pubExists db.publishers (getKey d "publisher_id") = true) →
       update_game db id (some d) (some msg) come = (Resp.error msg 400, db)) ∧
    (∀ (db : DB) (id : Int) (d : Json) (g : Game),
       findGame db.games id = some g → d.isEmpty = false →
       (hasKey d "category_id" = true → catExists db.categories (getKey d "category_id") = true) →
       (hasKey d "publisher_id" = true → pubExists db.publishers (getKey d "publisher_id") = true) →
       update_game db id (some d) none true =
         (Resp.error "Database integrity error" 400, db)) := by
  have hmiss : ∀ d : Json, hasKey d "title" = true → hasKey d "description" = true →
      hasKey d "category_id" = true → hasKey d "publisher_id" = true →
      required_fields.filter (fun f => !hasKey d f) = [] := by
    intro d ht hd hc hp
    simp [required_fields, List.filter, ht, hd, hc, hp]
  have hnonempty : ∀ d : Json, hasKey d "title" = true → d.isEmpty = false := by
    intro d ht
    cases d with
    | nil => simp [hasKey] at ht
    | cons a l => rfl
  have hcond : ∀ (b c : Bool), (b = true → c = true) → (b && !c) = false := by
    intro b c hbc
    cases hb : b
    · rfl
    · simp [hbc hb]
  refine ⟨?_, ?_, ?_, ?_⟩
  · intro db d newId msg come ht hd hc hp hcat hpub
    simp [create_game, hnonempty d ht, hmiss d ht hd hc hp, hcat, hpub]
  · intro db d newId ht hd hc hp hcat hpub
    simp [create_game, hnonempty d ht, hmiss d ht hd hc hp, hcat, hpub]
  · intro db id d g msg come hf hne hcat hpub
    simp [update_game, hf, hne, hcond _ _ hcat, hcond _ _ hpub]
  · intro db id d g hf hne hcat hpub
    simp [update_game, hf, hne, hcond _ _ hcat, hcond _ _ hpub]

/-- C6 witness: all four error paths at concrete inputs, each leaving
the sample database unchanged. -/
theorem mutation_errors_rollback_witness :
    create_game db1 (some dvalid) 2 (some "bad value") false =
      (Resp.error "bad value" 400, db1) ∧
    create_game db1 (some dvalid) 2 none true =
      (Resp.error "Database integrity error" 400, db1) ∧
    update_game db1 1 (some dsr) (some "bad value") false =
      (Resp.error "bad value" 400, db1) ∧
    update_game db1 1 (some dsr) none true =
      (Resp.error "Database integrity error" 400, db1) :=
  ⟨mutation_errors_rollback.1 db1 dvalid 2 "bad value" false
     (by decide) (by decide) (by decide) (by decide) (by decide) (by decide),
   mutation_errors_rollback.2.1 db1 dvalid 2
     (by decide) (by decide) (by decide) (by decide) (by decide) (by decide),
   mutation_errors_rollback.2.2.1 db1 1 dsr game1 "bad value" false
     (by decide) (by decide) (by decide) (by decide),
   mutation_errors_rollback.2.2.2 db1 1 dsr game1
     (by decide) (by decide) (by decide) (by decide)⟩

/-- C8: DELETE on an existing game with no integrity error removes the
game and answers 204 with the empty JSON object (which the framework
sends as an empty 204 body); DELETE on an absent id answers 404. -/
theorem delete_game_spec :
    (∀ (db : DB) (id : Int) (g : Game), findGame db.games id = some g →
       delete_game db id false =
         (Resp.emptyObj 204, { db with games := removeFirst (byId id) db.games })) ∧
    (∀ (db : DB) (id : Int) (come : Bool), findGame db.games id = none →
       delete_game db id come = (Resp.error "Game not found" 404, db)) := by
  constructor
  · intro db id g h
    simp [delete_game, h]
  · intro db id come h
    simp [delete_game, h]

/-- C8 witness: deleting game 1 empties the sample game table with a
204 empty-object response; deleting absent id 2 gives 404. -/
theorem delete_game_spec_witness :
    delete_game db1 1 false =
      (Resp.emptyObj 204, { games := [], categories := [cat1], publishers := [pub1] }) ∧
    delete_game db1 2 false = (Resp.error "Game not found" 404, db1) :=
  ⟨(delete_game_spec.1 db1 1 game1 (by decide)).trans (by decide),
   delete_game_spec.2 db1 2 false (by decide)⟩

/-- C9: a successful DELETE followed by GET on the same id returns 404
with error body "Game not found" (game ids are unique, the database's
primary-key constraint, stated as `Nodup`). -/
theorem delete_then_get_404 (db : DB) (id : Int) (g : Game)
    (hnd : (db.games.map Game.id).Nodup)
    (h : findGame db.games id = some g) :
    get_game (delete_game db id false).2 id = Resp.error "Game not found" 404 := by
  have key : (delete_game db id false).2 =
      { db with games := removeFirst (byId id) db.games } := by
    unfold delete_game
    rw [h]
    rfl
  rw [key]
  have h2 := find?_removeFirst_none db.games id g hnd h
  simp [get_game, findGame, h2]

/-- C9 witness: after deleting game 1 from the sample database, GET on
id 1 is a 404. -/
theorem delete_then_get_404_witness :
    get_game (delete_game db1 1 false).2 1 = Resp.error "Game not found" 404 :=
  delete_then_get_404 db1 1 game1 (by decide) (by decide)

/-- The post-state of create: either the pre-state (any failure path) or
the pre-state with the constructed game appended, in which case both
foreign-key existence checks passed. -/
theorem create_game_state (db : DB) (data : Option Json) (newId : Int)
    (ce : Option String) (come : Bool) :
    (create_game db data newId ce come).2 = db ∨
    ∃ d, data = some d ∧
      catExists db.categories (getKey d "category_id") = true ∧
      pubExists db.publishers (getKey d "publisher_id") = true ∧
      (create_game db data newId ce come).2 =
        { db with games := db.games ++ [builtGame d newId] } := by
  rcases data with _ | d
  · exact Or.inl rfl
  · by_cases h1 : d.isEmpty = true
    · left
      simp [create_game, h1]
    · by_cases h2 : (required_fields.filter (fun f => !hasKey d f)).isEmpty = true
      · by_cases h3 : catExists db.categories (getKey d "category_id") = true
        · by_cases h4 : pubExists db.publishers (getKey d "publisher_id") = true
          · rcases ce with _ | msg
            · by_cases h5 : come = true
              · left
                simp [create_game, h1, h2, h3, h4, h5]
              · right
                exact ⟨d, rfl, h3, h4, by simp [create_game, h1, h2, h3, h4, h5]⟩
            · left
              simp [create_game, h1, h2, h3, h4]
          · left
            simp [create_game, h1, h2, h3, h4]
        · left
          simp [create_game, h1, h2, h3]
      · left
        simp [create_game, h1, h2]

/-- The post-state of update: either the pre-state (any failure path) or
the pre-state with the found game overwritten by its updated version, in
which case each supplied foreign key passed its existence check. -/
theorem update_game_state (db : DB) (id : Int) (data : Option Json)
    (mErr : Option String) (come : Bool) :
    (update_game db id data mErr come).2 = db ∨
    ∃ d g, data = some d ∧ findGame db.games id = some g ∧
      (hasKey d "category_id" = true → catExists db.categories (getKey d "category_id") = true) ∧
      (hasKey d "publisher_id" = true → pubExists db.publishers (getKey d "publisher_id") = true) ∧
      (update_game db id data mErr come).2 =
        { db with games := setFirst (byId id) (fun _ => updatedGame g d) db.games } := by
  cases hf : findGame db.games id with
  | none =>
    left
    simp [update_game, hf]
  | some g =>
    rcases data with _ | d
    · left
      simp [update_game, hf]
    · by_cases h1 : d.isEmpty = true
      · left
        simp [update_game, hf, h1]
      · by_cases h2 : (hasKey d "category_id" && !catExists db.categories (getKey d "category_id")) = true
        · left
          simp only [update_game, hf, if_neg h1, if_pos h2]
        · by_cases h3 : (hasKey d "publisher_id" && !pubExists db.publishers (getKey d "publisher_id")) = true
          · left
            simp only [update_game, hf, if_neg h1, if_neg h2, if_pos h3]
          · have hcat : hasKey d "category_id" = true →
                catExists db.categories (getKey d "category_id") = true := by
              intro hk
              simpa [hk] using h2
            have hpub : hasKey d "publisher_id" = true →
                pubExists db.publishers (getKey d "publisher_id") = true := by
              intro hk
              simpa [hk] using h3
            rcases mErr with _ | msg
            · by_cases h4 : come = true
              · left
                simp only [update_game, hf, if_neg h1, if_neg h2, if_neg h3, if_pos h4]
              · right
                refine ⟨d, g, rfl, rfl, hcat, hpub, ?_⟩
                simp only [update_game, hf, if_neg h1, if_neg h2, if_neg h3, if_neg h4]
            · left
              simp only [update_game, hf, if_neg h1, if_neg h2, if_neg h3]

/-- C7: create and update preserve the referential-integrity invariant:
if every game's set foreign keys resolve before the operation, they
still resolve after it, whatever the request and the oracles. -/
theorem fk_invariant_preserved (db : DB) (data : Option Json) (newId : Int)
    (ce : Option String) (id : Int) (mErr : Option String) (come come' : Bool)
    (h : FKsResolve db = true) :
    FKsResolve (create_game db data newId ce come).2 = true ∧
    FKsResolve (update_game db id data mErr come').2 = true := by
  constructor
  · rcases create_game_state db data newId ce come with heq | ⟨d, -, hcat, hpub, heq⟩
    · rw [heq]
      exact h
    · rw [heq]
      unfold FKsResolve at h ⊢
      simp only [List.all_append, List.all_cons, List.all_nil, Bool.and_true,
        Bool.and_eq_true] at *
      refine ⟨h, ?_, ?_⟩
      · simp [builtGame, hcat]
      · simp [builtGame, hpub]
  · rcases update_game_state db id data mErr come' with heq | ⟨d, g, -, hf, hcat, hpub, heq⟩
    · rw [heq]
      exact h
    · rw [heq]
      have hg : g ∈ db.games := List.mem_of_find?_eq_some hf
      unfold FKsResolve at h ⊢
      have hqg := List.all_eq_true.mp h g hg
      refine all_setFirst _ (byId id) (fun _ => updatedGame g d) db.games h ?_
      intro a _
      simp only [Bool.and_eq_true, Bool.or_eq_true] at hqg ⊢
      constructor
      · by_cases hk : hasKey d "category_id" = true
        · right
          simpa [updatedGame, hk] using hcat hk
        · have : (updatedGame g d).category_id = g.category_id := by
            simp [updatedGame, hk]
          rw [this]
          exact hqg.1
      · by_cases hk : hasKey d "publisher_id" = true
        · right
          simpa [updatedGame, hk] using hpub hk
        · have : (updatedGame g d).publisher_id = g.publisher_id := by
            simp [updatedGame, hk]
          rw [this]
          exact hqg.2

/-- C7 witness: the invariant holds of the sample database and is kept
by a concrete create and a concrete update. -/
theorem fk_invariant_preserved_witness :
    FKsResolve (create_game db1 (some dvalid) 2 none false).2 = true ∧
    FKsResolve (update_game db1 1 (some dvalid) none false).2 = true :=
  fk_invariant_preserved db1 (some dvalid) 2 none 1 none false false (by decide)

end GamesApi
